import Mathlib

/-!
Verification of the instanced-mesh material pipeline (bevy extension crate).

Shallow embedding of the two source files `src/lib.rs` and `src/pipeline.rs`:
pure Lean functions mirror the Rust items; GPU-side effects (render-pass
commands, ECS inserts, phase additions) are reified as explicit return values;
fallible paths return `Except`/`Option`.  `f32` scalar arithmetic (depth bias,
sort distance, mask thresholds) is idealised as `ℚ`; `f32` values appearing
only as raw bytes in buffers are modelled by their 32-bit patterns.  `usize`
is modelled as `Nat`, and the Rust cast `as u32` as `% 2 ^ 32`.
-/

/-- Bit pattern of an `f32` (a 32-bit word; only the low 32 bits of `bits`
are observable through byte extraction). -/
structure F32 where
  bits : Nat
deriving DecidableEq, Repr

/-- The four little-endian bytes of an `f32`, as `bytemuck` reinterprets it. -/
def F32.leBytes (f : F32) : List Nat :=
  [f.bits % 256, f.bits / 256 % 256, f.bits / 65536 % 256, f.bits / 16777216 % 256]

/-- `bevy::prelude::Vec3`: three packed `f32`s. -/
structure Vec3 where
  x : F32
  y : F32
  z : F32
deriving DecidableEq, Repr

/-- `Instance` (src/lib.rs lines 26-30): `#[repr(C)] { position: Vec3 }`,
`Pod`, so its byte image is exactly the 12 bytes of the three floats. -/
structure Instance where
  position : Vec3
deriving DecidableEq, Repr

/-- Byte image of one `Instance` record under `bytemuck`: the three floats,
little-endian, tightly packed (`#[repr(C)]`, no padding). -/
def Instance.bytes (i : Instance) : List Nat :=
  i.position.x.leBytes ++ i.position.y.leBytes ++ i.position.z.leBytes

/-- `bytemuck::cast_slice::<Instance, u8>` (src/lib.rs line 89): the
concatenated byte images of the records. -/
def cast_slice (instances : List Instance) : List Nat :=
  (instances.map Instance.bytes).flatten

/-- `InstanceBuffer` (src/lib.rs lines 75-79): the created GPU buffer is
modelled by its byte contents; `length : usize` as `Nat`. -/
structure InstanceBuffer where
  buffer : List Nat
  length : Nat
deriving DecidableEq, Repr

/-- One row of the render-world query `Query<(Entity, &Instances)>` of
`prepare_instance_buffers`, together with the entity's current
`InstanceBuffer` attachment (if any), which `insert` replaces. -/
structure PrepareRow where
  entity : Nat
  instances : List Instance
  instance_buffer : Option InstanceBuffer
deriving DecidableEq, Repr

/-- Effect of the loop body of `prepare_instance_buffers` (src/lib.rs lines
86-96) on one entity: create a buffer whose contents are
`bytemuck::cast_slice(instances)` and insert `InstanceBuffer { buffer,
length: instances.len() }`, overwriting any prior component. -/
def prepare_row (row : PrepareRow) : PrepareRow :=
  { row with
    instance_buffer :=
      some { buffer := cast_slice row.instances, length := row.instances.length } }

/-- `prepare_instance_buffers` (src/lib.rs lines 81-97): the loop over the
query, one insert per entity carrying `Instances`. -/
def prepare_instance_buffers (world : List PrepareRow) : List PrepareRow :=
  world.map prepare_row

/-! ## Pipeline specialization (src/pipeline.rs lines 43-68) -/

/-- `wgpu` vertex formats (only the ones this crate can meet). -/
inductive VertexFormat where
  | Float32x2
  | Float32x3
  | Float32x4
deriving DecidableEq, Repr

/-- `VertexFormat::size()` in bytes. -/
def VertexFormat.size : VertexFormat → Nat
  | .Float32x2 => 8
  | .Float32x3 => 12
  | .Float32x4 => 16

inductive VertexStepMode where
  | Vertex
  | Instance
deriving DecidableEq, Repr

structure VertexAttribute where
  format : VertexFormat
  offset : Nat
  shader_location : Nat
deriving DecidableEq, Repr

structure VertexBufferLayout where
  array_stride : Nat
  step_mode : VertexStepMode
  attributes : List VertexAttribute
deriving DecidableEq, Repr

/-- The vertex state of a `RenderPipelineDescriptor`: the shader/entry-point
data is opaque to this crate (forwarded unchanged), the buffer layouts are
structural. -/
structure VertexState where
  shader : Nat
  entry_point : Nat
  shader_defs : Nat
  buffers : List VertexBufferLayout
deriving DecidableEq, Repr

/-- `RenderPipelineDescriptor`: every field the base specialization produced
other than `vertex` is opaque data the crate forwards unchanged. -/
structure RenderPipelineDescriptor where
  label : Nat
  layout : Nat
  vertex : VertexState
  fragment : Nat
  primitive : Nat
  depth_stencil : Nat
  multisample : Nat
deriving DecidableEq, Repr

/-- `SpecializedMeshPipelineError`, opaque. -/
structure SpecializedMeshPipelineError where
  code : Nat
deriving DecidableEq, Repr

/-- The mesh vertex buffer layout handed to `specialize`; opaque to the
crate, which forwards it to the base specialization. -/
structure MeshVertexBufferLayout where
  id : Nat
deriving DecidableEq, Repr

/-- The vertex-buffer-layout descriptor pushed by
`InstancedMeshMaterialPipeline::specialize` (src/pipeline.rs lines 56-64):
stride `VertexFormat::Float32x3.size()`, per-instance step mode, one
attribute `Float32x3` at offset 0, shader location 10. -/
def instanceVertexBufferLayout : VertexBufferLayout :=
  { array_stride := VertexFormat.Float32x3.size
    step_mode := VertexStepMode.Instance
    attributes := [{ format := VertexFormat.Float32x3, offset := 0,
                     shader_location := 10 }] }

/-- `InstancedMeshMaterialPipeline::specialize` (src/pipeline.rs lines
49-67), parametric in the wrapped base specialization
`self.material_pipeline.specialize` (host code, out of scope): delegate,
propagate failure with `?`, otherwise push `instanceVertexBufferLayout`
onto `descriptor.vertex.buffers`. -/
def InstancedMeshMaterialPipeline.specialize {Key : Type}
    (base : Key → MeshVertexBufferLayout →
      Except SpecializedMeshPipelineError RenderPipelineDescriptor)
    (key : Key) (layout : MeshVertexBufferLayout) :
    Except SpecializedMeshPipelineError RenderPipelineDescriptor := do
  let descriptor ← base key layout
  pure { descriptor with
    vertex := { descriptor.vertex with
      buffers := descriptor.vertex.buffers ++ [instanceVertexBufferLayout] } }

/-- All shader locations claimed by the attributes of a descriptor's vertex
buffer layouts. -/
def descriptorLocations (d : RenderPipelineDescriptor) : List Nat :=
  (d.vertex.buffers.map (fun b => b.attributes.map VertexAttribute.shader_location)).flatten

/-! ## Draw command (src/pipeline.rs lines 78-116) -/

inductive IndexFormat where
  | Uint16
  | Uint32
deriving DecidableEq, Repr

/-- `GpuBufferInfo`: `count`/`vertex_count` are `u32`, modelled as `Nat`
(values < 2^32 in any real mesh); index/vertex GPU buffers by contents. -/
inductive GpuBufferInfo where
  | Indexed (buffer : List Nat) (index_format : IndexFormat) (count : Nat)
  | NonIndexed (vertex_count : Nat)
deriving DecidableEq, Repr

/-- The GPU-resident mesh as the draw command sees it. -/
structure GpuMesh where
  vertex_buffer : List Nat
  buffer_info : GpuBufferInfo
deriving DecidableEq, Repr

/-- Render-pass commands issued by `DrawMeshInstanced::render`; draw ranges
are `Range<u32>` pairs (start, end). -/
inductive PassCommand where
  | set_vertex_buffer (slot : Nat) (buffer : List Nat)
  | set_index_buffer (buffer : List Nat) (offset : Nat) (format : IndexFormat)
  | draw_indexed (index_start index_end : Nat) (base_vertex : Int)
      (instance_start instance_end : Nat)
  | draw (vertex_start vertex_end instance_start instance_end : Nat)
deriving DecidableEq, Repr

inductive RenderCommandResult where
  | Success
  | Failure
deriving DecidableEq, Repr

/-- `DrawMeshInstanced::render` (src/pipeline.rs lines 86-115): resolve the
GPU mesh by handle; on `None` return `Failure` having issued nothing;
otherwise bind vertex buffer 0 (mesh) and 1 (instances), then either bind
the index buffer and `draw_indexed(0..count, 0, 0..length as u32)` or
`draw(0..vertex_count, 0..length as u32)`.  The `usize → u32` cast is
`% 2 ^ 32`. -/
def DrawMeshInstanced.render (meshes : Nat → Option GpuMesh)
    (mesh_handle : Nat) (instance_buffer : InstanceBuffer) :
    RenderCommandResult × List PassCommand :=
  match meshes mesh_handle with
  | none => (RenderCommandResult.Failure, [])
  | some gpu_mesh =>
    let setup := [PassCommand.set_vertex_buffer 0 gpu_mesh.vertex_buffer,
                  PassCommand.set_vertex_buffer 1 instance_buffer.buffer]
    match gpu_mesh.buffer_info with
    | GpuBufferInfo.Indexed buffer index_format count =>
        (RenderCommandResult.Success,
          setup ++ [PassCommand.set_index_buffer buffer 0 index_format,
            PassCommand.draw_indexed 0 count 0 0
              (instance_buffer.length % 2 ^ 32)])
    | GpuBufferInfo.NonIndexed vertex_count =>
        (RenderCommandResult.Success,
          setup ++ [PassCommand.draw 0 vertex_count 0
            (instance_buffer.length % 2 ^ 32)])

/-- Whether a pass command is a draw call. -/
def PassCommand.isDraw : PassCommand → Bool
  | .draw_indexed _ _ _ _ _ => true
  | .draw _ _ _ _ => true
  | _ => false

/-! ## Phase queuing (src/lib.rs lines 100-203) -/

/-- `bevy::prelude::AlphaMode`; the `Mask` threshold is an `f32`, idealised
as `ℚ`. -/
inductive AlphaMode where
  | Opaque
  | Mask (threshold : ℚ)
  | Blend
  | Premultiplied
  | Add
  | Multiply
deriving DecidableEq, Repr

inductive PrimitiveTopology where
  | PointList
  | LineList
  | LineStrip
  | TriangleList
  | TriangleStrip
deriving DecidableEq, Repr

/-- `MeshPipelineKey` is a `u32` bitflag set in bevy; modelled structurally
by the fields the queuing system composes with `|`: MSAA sample bits, HDR
bit, primitive-topology bits, and the two blend flags. -/
structure MeshPipelineKey where
  msaa_samples : Nat
  hdr : Bool
  topology : PrimitiveTopology
  blend_premultiplied_alpha : Bool
  blend_multiply : Bool
deriving DecidableEq, Repr

/-- `MaterialPipelineKey { mesh_key, bind_group_data }`; the material's
bind-group data is opaque. -/
structure MaterialPipelineKey where
  mesh_key : MeshPipelineKey
  bind_group_data : Nat
deriving DecidableEq, Repr

/-- `mesh_key` as built at src/lib.rs lines 145-152: topology and view bits,
then `BLEND_PREMULTIPLIED_ALPHA` for `Blend | Premultiplied | Add`, else
`BLEND_MULTIPLY` for `Multiply`, else no blend flag. -/
def mk_mesh_key (msaa_samples : Nat) (hdr : Bool)
    (topology : PrimitiveTopology) (alpha_mode : AlphaMode) : MeshPipelineKey :=
  let base : MeshPipelineKey :=
    { msaa_samples := msaa_samples, hdr := hdr, topology := topology,
      blend_premultiplied_alpha := false, blend_multiply := false }
  match alpha_mode with
  | .Blend | .Premultiplied | .Add => { base with blend_premultiplied_alpha := true }
  | .Multiply => { base with blend_multiply := true }
  | _ => base

/-- The GPU mesh asset as the queuing system reads it (`mesh.primitive_topology`,
`mesh.layout`). -/
structure RenderMesh where
  primitive_topology : PrimitiveTopology
  layout : MeshVertexBufferLayout
deriving DecidableEq, Repr

/-- The prepared material as the queuing system reads it:
`material.properties.alpha_mode`, `material.properties.depth_bias` (an `f32`,
idealised as `ℚ`), and `material.key` (the bind-group data). -/
structure PreparedMaterial where
  alpha_mode : AlphaMode
  depth_bias : ℚ
  key : Nat
deriving DecidableEq, Repr

/-- One row of the
`Query<(Entity, &MeshUniform, &Handle<Mesh>, &Handle<M>), With<Instances>>`. -/
structure QueuedRow where
  entity : Nat
  transform : Nat
  mesh_handle : Nat
  material_handle : Nat
deriving DecidableEq, Repr

/-- An `ExtractedView` as the queuing system reads it: the HDR flag and the
view rangefinder (`view.rangefinder3d().distance`, host code mapping a mesh
transform to its view-space depth, idealised over `ℚ`). -/
structure QueueView where
  hdr : Bool
  rangefinder : Nat → ℚ

/-- A phase item (`Opaque3d` / `AlphaMask3d` / `Transparent3d` all share this
shape): entity, draw-function id, cached pipeline id, sort distance. -/
structure QueuePhaseItem where
  entity : Nat
  draw_function : Nat
  pipeline : Nat
  distance : ℚ
deriving DecidableEq

/-- The three per-view phase lists the system appends to
(`opaque_phase`, `alpha_mask_phase`, `transparent_phase`). -/
structure PhaseLists where
  opaque_phase : List QueuePhaseItem
  alpha_mask_phase : List QueuePhaseItem
  transparent_phase : List QueuePhaseItem
deriving DecidableEq

def PhaseLists.empty : PhaseLists := ⟨[], [], []⟩

def PhaseLists.append (a b : PhaseLists) : PhaseLists :=
  ⟨a.opaque_phase ++ b.opaque_phase, a.alpha_mask_phase ++ b.alpha_mask_phase,
    a.transparent_phase ++ b.transparent_phase⟩

/-- Total number of phase items across the three lists. -/
def PhaseLists.total (a : PhaseLists) : Nat :=
  a.opaque_phase.length + a.alpha_mask_phase.length + a.transparent_phase.length

/-- All parameters of `queue_instanced_meshes_with_material` that are fixed
across the per-view loop: the three draw-function ids, the MSAA sample
count, the resource maps, and the pipeline specializer
(`pipelines.specialize(&pipeline_cache, &instanced_mesh_material_pipeline, ..)`,
host code, out of scope, returning a `CachedRenderPipelineId` or an error). -/
structure QueueEnv where
  opaque_draw_function : Nat
  alpha_mask_draw_function : Nat
  transparent_draw_function : Nat
  msaa_samples : Nat
  render_meshes : Nat → Option RenderMesh
  render_materials : Nat → Option PreparedMaterial
  specialize : MaterialPipelineKey → MeshVertexBufferLayout →
    Except SpecializedMeshPipelineError Nat

/-- The body of the inner entity loop (src/lib.rs lines 139-200) for one row:
resolve mesh and material (skipping the row when either is missing), build
the key, specialize (`.unwrap()` — a failure panics, modelled as `Except`
failure of the pass), compute the sort distance, and append one item to
the phase selected by alpha mode. -/
def queue_entity (env : QueueEnv) (view : QueueView) (row : QueuedRow) :
    Except SpecializedMeshPipelineError PhaseLists :=
  match env.render_meshes row.mesh_handle,
        env.render_materials row.material_handle with
  | some mesh, some material =>
    let mesh_key := mk_mesh_key env.msaa_samples view.hdr
      mesh.primitive_topology material.alpha_mode
    match env.specialize
        { mesh_key := mesh_key, bind_group_data := material.key }
        mesh.layout with
    | Except.error e => Except.error e
    | Except.ok pipeline =>
      let distance := view.rangefinder row.transform + material.depth_bias
      match material.alpha_mode with
      | AlphaMode.Opaque =>
          Except.ok ⟨[⟨row.entity, env.opaque_draw_function, pipeline, distance⟩], [], []⟩
      | AlphaMode.Mask _ =>
          Except.ok ⟨[], [⟨row.entity, env.alpha_mask_draw_function, pipeline, distance⟩], []⟩
      | AlphaMode.Blend | AlphaMode.Premultiplied
      | AlphaMode.Add | AlphaMode.Multiply =>
          Except.ok ⟨[], [], [⟨row.entity, env.transparent_draw_function, pipeline, distance⟩]⟩
  | _, _ => Except.ok PhaseLists.empty

/-- The per-view entity loop: fold `queue_entity` over the rows, accumulating
the three phase lists; a specialization failure (`.unwrap()` panic) aborts
the whole pass. -/
def queue_view (env : QueueEnv) (view : QueueView) :
    List QueuedRow → PhaseLists →
    Except SpecializedMeshPipelineError PhaseLists
  | [], acc => Except.ok acc
  | row :: rest, acc =>
    match queue_entity env view row with
    | Except.error e => Except.error e
    | Except.ok out => queue_view env view rest (acc.append out)

/-- All phase items of the three lists, in phase order. -/
def PhaseLists.items (a : PhaseLists) : List QueuePhaseItem :=
  a.opaque_phase ++ a.alpha_mask_phase ++ a.transparent_phase

/-- The instance-range end of a draw command, if the command is a draw. -/
def PassCommand.drawInstanceEnd : PassCommand → Option Nat
  | .draw_indexed _ _ _ _ instance_end => some instance_end
  | .draw _ _ _ instance_end => some instance_end
  | _ => none

/-- Instance-range ends of all draw calls in a command stream. -/
def drawInstanceEnds (commands : List PassCommand) : List Nat :=
  commands.filterMap PassCommand.drawInstanceEnd

/-- Whether a fallible computation (a `Result` in Rust terms) succeeded. -/
def exceptIsOk {ε α : Type} : Except ε α → Bool
  | Except.ok _ => true
  | Except.error _ => false

/-- The host's draw submission over a phase's queued items: each item's
registered draw function runs independently on that item's own mesh handle
and instance buffer. -/
def render_items (meshes : Nat → Option GpuMesh)
    (items : List (Nat × InstanceBuffer)) :
    List (RenderCommandResult × List PassCommand) :=
  items.map (fun item => DrawMeshInstanced.render meshes item.1 item.2)

/-! ## Concrete inputs used by witnesses and counterexamples -/

def exInstance : Instance := ⟨⟨⟨1⟩, ⟨2⟩, ⟨3⟩⟩⟩

def exPrepareRow : PrepareRow :=
  { entity := 7, instances := [exInstance, exInstance, exInstance],
    instance_buffer := some ⟨[9], 1⟩ }

def exMesh : RenderMesh :=
  { primitive_topology := PrimitiveTopology.TriangleList, layout := ⟨0⟩ }

def exMaterialOpaqueMode : PreparedMaterial :=
  { alpha_mode := AlphaMode.Opaque, depth_bias := 0, key := 0 }

def exMaterialBiased : PreparedMaterial :=
  { alpha_mode := AlphaMode.Opaque, depth_bias := 1, key := 0 }

def exRow : QueuedRow :=
  { entity := 1, transform := 0, mesh_handle := 0, material_handle := 0 }

def exView : QueueView := { hdr := false, rangefinder := fun _ => 0 }

def exEnv : QueueEnv :=
  { opaque_draw_function := 100, alpha_mask_draw_function := 101,
    transparent_draw_function := 102, msaa_samples := 4,
    render_meshes := fun _ => some exMesh,
    render_materials := fun _ => some exMaterialOpaqueMode,
    specialize := fun _ _ => Except.ok 5 }

def exEnvBiased : QueueEnv :=
  { exEnv with render_materials := fun _ => some exMaterialBiased }

def exEnvNoMesh : QueueEnv :=
  { exEnv with render_meshes := fun _ => none }

def exEnvSpecFail : QueueEnv :=
  { exEnv with specialize := fun _ _ => Except.error ⟨3⟩ }

def exGpuMeshIndexed : GpuMesh :=
  { vertex_buffer := [1, 2],
    buffer_info := GpuBufferInfo.Indexed [5, 6] IndexFormat.Uint32 36 }

def exGpuMeshNonIndexed : GpuMesh :=
  { vertex_buffer := [1, 2], buffer_info := GpuBufferInfo.NonIndexed 9 }

def exInstanceBuffer : InstanceBuffer := { buffer := [0, 1, 2], length := 3 }

/-- A base material specialization (host side) producing a descriptor whose
mesh layout uses shader locations 0, 1, 2 only. -/
def exBaseDescriptor : RenderPipelineDescriptor :=
  { label := 0, layout := 0,
    vertex :=
      { shader := 0, entry_point := 0, shader_defs := 0,
        buffers :=
          [{ array_stride := 32, step_mode := VertexStepMode.Vertex,
             attributes :=
               [{ format := VertexFormat.Float32x3, offset := 0, shader_location := 0 },
                { format := VertexFormat.Float32x3, offset := 12, shader_location := 1 },
                { format := VertexFormat.Float32x2, offset := 24, shader_location := 2 }] }] },
    fragment := 0, primitive := 0, depth_stencil := 0, multisample := 0 }

/-- A base material specialization producing a descriptor whose mesh layout
already uses shader location 10 (a custom mesh vertex attribute may sit at
any shader location, 10 included). -/
def exBaseDescriptorLoc10 : RenderPipelineDescriptor :=
  { exBaseDescriptor with
    vertex :=
      { exBaseDescriptor.vertex with
        buffers :=
          [{ array_stride := 12, step_mode := VertexStepMode.Vertex,
             attributes :=
               [{ format := VertexFormat.Float32x3, offset := 0,
                  shader_location := 10 }] }] } }

def exBase : Nat → MeshVertexBufferLayout →
    Except SpecializedMeshPipelineError RenderPipelineDescriptor :=
  fun _ _ => Except.ok exBaseDescriptor

def exBaseLoc10 : Nat → MeshVertexBufferLayout →
    Except SpecializedMeshPipelineError RenderPipelineDescriptor :=
  fun _ _ => Except.ok exBaseDescriptorLoc10

/-! ## Helper lemmas -/

theorem Instance.length_bytes (i : Instance) : i.bytes.length = 12 := by
  simp [Instance.bytes, F32.leBytes]

theorem cast_slice_cons (i : Instance) (rest : List Instance) :
    cast_slice (i :: rest) = i.bytes ++ cast_slice rest := rfl

theorem cast_slice_length (instances : List Instance) :
    (cast_slice instances).length = 12 * instances.length := by
  induction instances with
  | nil => simp [cast_slice]
  | cons i rest ih =>
      rw [cast_slice_cons, List.length_append, Instance.length_bytes, ih,
        List.length_cons]
      ring

theorem cast_slice_segment (instances : List Instance) (i : Nat)
    (hi : i < instances.length) :
    ((cast_slice instances).drop (12 * i)).take 12
      = (instances.get ⟨i, hi⟩).bytes := by
  induction instances generalizing i with
  | nil => simp at hi
  | cons inst rest ih =>
      cases i with
      | zero =>
          rw [cast_slice_cons, Nat.mul_zero, List.drop_zero]
          rw [List.take_append_of_le_length (by rw [Instance.length_bytes])]
          simp [Instance.length_bytes]
      | succ j =>
          have hj : j < rest.length := by simpa using hi
          have hstep : 12 * (j + 1) = inst.bytes.length + 12 * j := by
            rw [Instance.length_bytes]; ring
          rw [cast_slice_cons, List.get, hstep, List.drop_append]
          exact ih j hj

theorem PhaseLists.append_empty (a : PhaseLists) :
    a.append PhaseLists.empty = a := by
  cases a
  simp [PhaseLists.append, PhaseLists.empty]

theorem queue_entity_eq (env : QueueEnv) (view : QueueView) (row : QueuedRow)
    (mesh : RenderMesh) (material : PreparedMaterial)
    (hm : env.render_meshes row.mesh_handle = some mesh)
    (hmat : env.render_materials row.material_handle = some material) :
    queue_entity env view row =
      match env.specialize
          { mesh_key := mk_mesh_key env.msaa_samples view.hdr
              mesh.primitive_topology material.alpha_mode,
            bind_group_data := material.key } mesh.layout with
      | Except.error e => Except.error e
      | Except.ok pipeline =>
        match material.alpha_mode with
        | AlphaMode.Opaque =>
            Except.ok ⟨[⟨row.entity, env.opaque_draw_function, pipeline,
              view.rangefinder row.transform + material.depth_bias⟩], [], []⟩
        | AlphaMode.Mask _ =>
            Except.ok ⟨[], [⟨row.entity, env.alpha_mask_draw_function, pipeline,
              view.rangefinder row.transform + material.depth_bias⟩], []⟩
        | AlphaMode.Blend | AlphaMode.Premultiplied
        | AlphaMode.Add | AlphaMode.Multiply =>
            Except.ok ⟨[], [], [⟨row.entity, env.transparent_draw_function, pipeline,
              view.rangefinder row.transform + material.depth_bias⟩]⟩ := by
  unfold queue_entity
  rw [hm, hmat]

theorem queue_entity_skip (env : QueueEnv) (view : QueueView) (row : QueuedRow)
    (h : env.render_meshes row.mesh_handle = none ∨
         env.render_materials row.material_handle = none) :
    queue_entity env view row = Except.ok PhaseLists.empty := by
  unfold queue_entity
  rcases h with h | h
  · rw [h]
  · rw [h]
    cases env.render_meshes row.mesh_handle <;> rfl

theorem queue_entity_spec_error (env : QueueEnv) (view : QueueView)
    (row : QueuedRow) (mesh : RenderMesh) (material : PreparedMaterial)
    (err : SpecializedMeshPipelineError)
    (hm : env.render_meshes row.mesh_handle = some mesh)
    (hmat : env.render_materials row.material_handle = some material)
    (hs : env.specialize
        { mesh_key := mk_mesh_key env.msaa_samples view.hdr
            mesh.primitive_topology material.alpha_mode,
          bind_group_data := material.key } mesh.layout = Except.error err) :
    queue_entity env view row = Except.error err := by
  rw [queue_entity_eq env view row mesh material hm hmat, hs]

theorem queue_entity_items_distance (env : QueueEnv) (view : QueueView)
    (row : QueuedRow) (material : PreparedMaterial) (out : PhaseLists)
    (hmat : env.render_materials row.material_handle = some material)
    (hq : queue_entity env view row = Except.ok out) :
    ∀ item ∈ out.items,
      item.distance = view.rangefinder row.transform + material.depth_bias := by
  cases hm : env.render_meshes row.mesh_handle with
  | none =>
      rw [queue_entity_skip env view row (Or.inl hm)] at hq
      obtain rfl : PhaseLists.empty = out := by
        injection hq
      intro item hitem
      simp [PhaseLists.items, PhaseLists.empty] at hitem
  | some mesh =>
      rw [queue_entity_eq env view row mesh material hm hmat] at hq
      cases hs : env.specialize
          { mesh_key := mk_mesh_key env.msaa_samples view.hdr
              mesh.primitive_topology material.alpha_mode,
            bind_group_data := material.key } mesh.layout with
      | error e => rw [hs] at hq; simp at hq
      | ok pipeline =>
          rw [hs] at hq
          cases hmode : material.alpha_mode <;> rw [hmode] at hq <;>
            simp only [Except.ok.injEq] at hq <;> subst hq <;>
            intro item hitem <;>
            simp [PhaseLists.items] at hitem <;> subst hitem <;> rfl

/-! ## Claims -/

/-- C1: for every entity carrying an `Instances` collection of length N,
`prepare_instance_buffers` attaches an `InstanceBuffer` whose stored element
count is N and whose buffer contents are exactly the packed instance
records — 12 bytes per record (three packed 32-bit floats, no padding), so
12*N bytes in all, record i at byte offset 12*i — replacing any prior
attachment. -/
theorem C1_prepare_instance_buffers (world : List PrepareRow) (row : PrepareRow)
    (hrow : row ∈ world) :
    prepare_row row ∈ prepare_instance_buffers world ∧
    (prepare_row row).entity = row.entity ∧
    (prepare_row row).instance_buffer
      = some ⟨cast_slice row.instances, row.instances.length⟩ ∧
    (cast_slice row.instances).length = 12 * row.instances.length ∧
    (∀ i (hi : i < row.instances.length),
      ((cast_slice row.instances).drop (12 * i)).take 12
        = (row.instances.get ⟨i, hi⟩).bytes) ∧
    (∀ inst : Instance, inst.bytes.length = 12) ∧
    (∀ prior : Option InstanceBuffer,
      (prepare_row { row with instance_buffer := prior }).instance_buffer
        = (prepare_row row).instance_buffer) :=
  ⟨List.mem_map_of_mem prepare_row hrow, rfl, rfl, cast_slice_length _,
    fun i hi => cast_slice_segment _ i hi, Instance.length_bytes,
    fun _ => rfl⟩

theorem C1_prepare_instance_buffers_witness :
    prepare_row exPrepareRow ∈ prepare_instance_buffers [exPrepareRow] ∧
    (prepare_row exPrepareRow).instance_buffer
      = some ⟨cast_slice exPrepareRow.instances, exPrepareRow.instances.length⟩ ∧
    (cast_slice exPrepareRow.instances).length = 12 * exPrepareRow.instances.length ∧
    exPrepareRow.instances.length = 3 ∧
    (cast_slice exPrepareRow.instances).length = 36 := by
  have h := C1_prepare_instance_buffers [exPrepareRow] exPrepareRow
    (List.mem_singleton.mpr rfl)
  exact ⟨h.1, h.2.2.1, h.2.2.2.1, rfl, by decide⟩

/-- C2: whenever an entity's GPU mesh and material both resolve and queuing
returns, exactly one phase item is produced for it, in the single phase
determined by the material's alpha mode alone: Opaque to the opaque phase,
Mask (any threshold) to the alpha-mask phase, Blend/Premultiplied/Add/
Multiply to the transparent phase. -/
theorem C2_alpha_mode_classification (env : QueueEnv) (view : QueueView)
    (row : QueuedRow) (mesh : RenderMesh) (material : PreparedMaterial)
    (out : PhaseLists)
    (hm : env.render_meshes row.mesh_handle = some mesh)
    (hmat : env.render_materials row.material_handle = some material)
    (hq : queue_entity env view row = Except.ok out) :
    out.total = 1 ∧
    (material.alpha_mode = AlphaMode.Opaque →
      out.opaque_phase.length = 1 ∧
      out.alpha_mask_phase = [] ∧ out.transparent_phase = []) ∧
    (∀ t : ℚ, material.alpha_mode = AlphaMode.Mask t →
      out.alpha_mask_phase.length = 1 ∧
      out.opaque_phase = [] ∧ out.transparent_phase = []) ∧
    ((material.alpha_mode = AlphaMode.Blend ∨
      material.alpha_mode = AlphaMode.Premultiplied ∨
      material.alpha_mode = AlphaMode.Add ∨
      material.alpha_mode = AlphaMode.Multiply) →
      out.transparent_phase.length = 1 ∧
      out.opaque_phase = [] ∧ out.alpha_mask_phase = []) := by
  rw [queue_entity_eq env view row mesh material hm hmat] at hq
  cases hs : env.specialize
      { mesh_key := mk_mesh_key env.msaa_samples view.hdr
          mesh.primitive_topology material.alpha_mode,
        bind_group_data := material.key } mesh.layout with
  | error e => rw [hs] at hq; simp at hq
  | ok pipeline =>
      rw [hs] at hq
      cases hmode : material.alpha_mode <;> rw [hmode] at hq <;>
        simp only [Except.ok.injEq] at hq <;> subst hq <;>
        simp [PhaseLists.total]

theorem C2_alpha_mode_classification_witness :
    PhaseLists.total ⟨[⟨1, 100, 5, 0 + 0⟩], [], []⟩ = 1 ∧
    (⟨[⟨1, 100, 5, 0 + 0⟩], [], []⟩ : PhaseLists).opaque_phase.length = 1 ∧
    (⟨[⟨1, 100, 5, 0 + 0⟩], [], []⟩ : PhaseLists).alpha_mask_phase = [] ∧
    (⟨[⟨1, 100, 5, 0 + 0⟩], [], []⟩ : PhaseLists).transparent_phase = [] := by
  have h := C2_alpha_mode_classification exEnv exView exRow exMesh
    exMaterialOpaqueMode ⟨[⟨1, 100, 5, 0 + 0⟩], [], []⟩ rfl rfl rfl
  exact ⟨h.1, (h.2.1 rfl).1, (h.2.1 rfl).2.1, (h.2.1 rfl).2.2⟩

/-- C6: every phase item queued for an entity carries sort distance equal to
the view rangefinder applied to the mesh's transform plus the material's
depth bias, exactly; hence for a fixed transform and view the sort distance
is strictly increasing in the depth bias. -/
theorem C6_sort_distance (env env₂ : QueueEnv) (view : QueueView)
    (row : QueuedRow) (material material₂ : PreparedMaterial)
    (out out₂ : PhaseLists)
    (hmat : env.render_materials row.material_handle = some material)
    (hq : queue_entity env view row = Except.ok out)
    (hmat₂ : env₂.render_materials row.material_handle = some material₂)
    (hq₂ : queue_entity env₂ view row = Except.ok out₂) :
    (∀ item ∈ out.items,
      item.distance = view.rangefinder row.transform + material.depth_bias) ∧
    (material.depth_bias < material₂.depth_bias →
      ∀ item ∈ out.items, ∀ item₂ ∈ out₂.items,
        item.distance < item₂.distance) := by
  have h₁ := queue_entity_items_distance env view row material out hmat hq
  have h₂ := queue_entity_items_distance env₂ view row material₂ out₂ hmat₂ hq₂
  refine ⟨h₁, fun hbias item hitem item₂ hitem₂ => ?_⟩
  rw [h₁ item hitem, h₂ item₂ hitem₂]
  exact add_lt_add_left hbias _

theorem C6_sort_distance_witness :
    (⟨1, 100, 5, 0 + 0⟩ : QueuePhaseItem).distance
      = exView.rangefinder exRow.transform + exMaterialOpaqueMode.depth_bias ∧
    (⟨1, 100, 5, 0 + 0⟩ : QueuePhaseItem).distance
      < (⟨1, 100, 5, 0 + 1⟩ : QueuePhaseItem).distance := by
  have h := C6_sort_distance exEnv exEnvBiased exView exRow
    exMaterialOpaqueMode exMaterialBiased
    ⟨[⟨1, 100, 5, 0 + 0⟩], [], []⟩ ⟨[⟨1, 100, 5, 0 + 1⟩], [], []⟩
    rfl rfl rfl rfl
  have hmem : (⟨1, 100, 5, 0 + 0⟩ : QueuePhaseItem)
      ∈ PhaseLists.items ⟨[⟨1, 100, 5, 0 + 0⟩], [], []⟩ :=
    List.mem_singleton.mpr rfl
  have hmem₂ : (⟨1, 100, 5, 0 + 1⟩ : QueuePhaseItem)
      ∈ PhaseLists.items ⟨[⟨1, 100, 5, 0 + 1⟩], [], []⟩ :=
    List.mem_singleton.mpr rfl
  exact ⟨h.1 _ hmem, h.2 zero_lt_one _ hmem _ hmem₂⟩

/-- C7: during queuing, an entity whose GPU mesh or GPU material is not yet
resident contributes no phase item and raises no error — the pass over the
remaining entities produces exactly what it would produce without that
entity. -/
theorem C7_skip_missing_resources (env : QueueEnv) (view : QueueView)
    (pre post : List QueuedRow) (row : QueuedRow)
    (h : env.render_meshes row.mesh_handle = none ∨
         env.render_materials row.material_handle = none) :
    queue_entity env view row = Except.ok PhaseLists.empty ∧
    ∀ acc, queue_view env view (pre ++ row :: post) acc
         = queue_view env view (pre ++ post) acc := by
  have hskip := queue_entity_skip env view row h
  refine ⟨hskip, ?_⟩
  induction pre with
  | nil =>
      intro acc
      simp [queue_view, hskip, PhaseLists.append_empty]
  | cons p rest ih =>
      intro acc
      simp only [List.cons_append, queue_view]
      cases queue_entity env view p with
      | error e => rfl
      | ok o => exact ih (acc.append o)

theorem C7_skip_missing_resources_witness :
    queue_entity exEnvNoMesh exView exRow = Except.ok PhaseLists.empty ∧
    queue_view exEnvNoMesh exView [exRow] PhaseLists.empty
      = queue_view exEnvNoMesh exView [] PhaseLists.empty := by
  have h := C7_skip_missing_resources exEnvNoMesh exView [] [] exRow
    (Or.inl rfl)
  exact ⟨h.1, h.2 PhaseLists.empty⟩

/-- C9: if the pipeline specialization fails for any entity of the per-view
queuing pass (the specialized result is `.unwrap()`ed), the whole pass
fails: it yields no phase lists at all, for any accumulator, instead of
skipping the offending entity. -/
theorem C9_specialization_failure_aborts (env : QueueEnv) (view : QueueView)
    (rows : List QueuedRow) (row : QueuedRow) (mesh : RenderMesh)
    (material : PreparedMaterial) (err : SpecializedMeshPipelineError)
    (hrow : row ∈ rows)
    (hm : env.render_meshes row.mesh_handle = some mesh)
    (hmat : env.render_materials row.material_handle = some material)
    (hs : env.specialize
        { mesh_key := mk_mesh_key env.msaa_samples view.hdr
            mesh.primitive_topology material.alpha_mode,
          bind_group_data := material.key } mesh.layout = Except.error err) :
    ∀ acc, exceptIsOk (queue_view env view rows acc) = false := by
  have hfail : queue_entity env view row = Except.error err :=
    queue_entity_spec_error env view row mesh material err hm hmat hs
  have main : ∀ rows', row ∈ rows' →
      ∀ acc, exceptIsOk (queue_view env view rows' acc) = false := by
    intro rows'
    induction rows' with
    | nil => intro hmem; cases hmem
    | cons r rest ih =>
        intro hmem acc
        rcases List.mem_cons.mp hmem with rfl | hmem'
        · simp [queue_view, hfail, exceptIsOk]
        · cases hqr : queue_entity env view r with
          | error e => simp [queue_view, hqr, exceptIsOk]
          | ok o =>
              simp only [queue_view, hqr]
              exact ih hmem' (acc.append o)
  exact main rows hrow

theorem C9_specialization_failure_aborts_witness :
    exceptIsOk (queue_view exEnvSpecFail exView [exRow] PhaseLists.empty)
      = false := by
  exact C9_specialization_failure_aborts exEnvSpecFail exView [exRow] exRow
    exMesh exMaterialOpaqueMode ⟨3⟩ (List.mem_singleton.mpr rfl) rfl rfl rfl
    PhaseLists.empty

theorem DrawMeshInstanced.render_eq (meshes : Nat → Option GpuMesh)
    (mesh_handle : Nat) (instance_buffer : InstanceBuffer) (gpu_mesh : GpuMesh)
    (h : meshes mesh_handle = some gpu_mesh) :
    DrawMeshInstanced.render meshes mesh_handle instance_buffer =
      match gpu_mesh.buffer_info with
      | GpuBufferInfo.Indexed buffer index_format count =>
          (RenderCommandResult.Success,
            [PassCommand.set_vertex_buffer 0 gpu_mesh.vertex_buffer,
             PassCommand.set_vertex_buffer 1 instance_buffer.buffer,
             PassCommand.set_index_buffer buffer 0 index_format,
             PassCommand.draw_indexed 0 count 0 0
               (instance_buffer.length % 2 ^ 32)])
      | GpuBufferInfo.NonIndexed vertex_count =>
          (RenderCommandResult.Success,
            [PassCommand.set_vertex_buffer 0 gpu_mesh.vertex_buffer,
             PassCommand.set_vertex_buffer 1 instance_buffer.buffer,
             PassCommand.draw 0 vertex_count 0
               (instance_buffer.length % 2 ^ 32)]) := by
  unfold DrawMeshInstanced.render
  rw [h]
  obtain ⟨vb, bi⟩ := gpu_mesh
  cases bi <;> rfl

/-- C3 counterexample: with 2^32 stored instance records, the single issued
draw call's instance range ends at 0 (the `usize → u32` cast wraps), not at
the stored element count, so the claimed instance range [0, L) fails at
L = 2^32. -/
theorem C3_draw_call_counterexample :
    DrawMeshInstanced.render (fun _ => some exGpuMeshIndexed) 0 ⟨[], 2 ^ 32⟩
      = (RenderCommandResult.Success,
         [PassCommand.set_vertex_buffer 0 [1, 2],
          PassCommand.set_vertex_buffer 1 [],
          PassCommand.set_index_buffer [5, 6] 0 IndexFormat.Uint32,
          PassCommand.draw_indexed 0 36 0 0 0]) ∧
    (⟨[], 2 ^ 32⟩ : InstanceBuffer).length ≠ 0 := by
  exact ⟨by decide, by decide⟩

/-- C3 (amended): for every phase item whose mesh resolves at draw time,
`DrawMeshInstanced::render` issues exactly one draw call — indexed over
index range [0, I) when the GPU mesh is indexed with I indices, non-indexed
over vertex range [0, V) when it has V vertices — with instance range
[0, L mod 2^32), which equals [0, L) whenever the stored element count L is
below 2^32. -/
theorem C3_one_draw_call (meshes : Nat → Option GpuMesh) (mesh_handle : Nat)
    (instance_buffer : InstanceBuffer) (gpu_mesh : GpuMesh)
    (h : meshes mesh_handle = some gpu_mesh) :
    (DrawMeshInstanced.render meshes mesh_handle instance_buffer).1
      = RenderCommandResult.Success ∧
    ((DrawMeshInstanced.render meshes mesh_handle instance_buffer).2.filter
      PassCommand.isDraw).length = 1 ∧
    (∀ buffer fmt count,
      gpu_mesh.buffer_info = GpuBufferInfo.Indexed buffer fmt count →
      (DrawMeshInstanced.render meshes mesh_handle instance_buffer).2
        = [PassCommand.set_vertex_buffer 0 gpu_mesh.vertex_buffer,
           PassCommand.set_vertex_buffer 1 instance_buffer.buffer,
           PassCommand.set_index_buffer buffer 0 fmt,
           PassCommand.draw_indexed 0 count 0 0
             (instance_buffer.length % 2 ^ 32)]) ∧
    (∀ vertex_count,
      gpu_mesh.buffer_info = GpuBufferInfo.NonIndexed vertex_count →
      (DrawMeshInstanced.render meshes mesh_handle instance_buffer).2
        = [PassCommand.set_vertex_buffer 0 gpu_mesh.vertex_buffer,
           PassCommand.set_vertex_buffer 1 instance_buffer.buffer,
           PassCommand.draw 0 vertex_count 0
             (instance_buffer.length % 2 ^ 32)]) ∧
    (instance_buffer.length < 2 ^ 32 →
      instance_buffer.length % 2 ^ 32 = instance_buffer.length) := by
  rw [DrawMeshInstanced.render_eq meshes mesh_handle instance_buffer gpu_mesh h]
  cases hb : gpu_mesh.buffer_info with
  | Indexed buffer fmt count =>
      refine ⟨rfl, rfl, ?_, ?_, fun hlt => Nat.mod_eq_of_lt hlt⟩
      · intro b f c hc
        cases hc
        rfl
      · intro v hv
        cases hv
  | NonIndexed vertex_count =>
      refine ⟨rfl, rfl, ?_, ?_, fun hlt => Nat.mod_eq_of_lt hlt⟩
      · intro b f c hc
        cases hc
      · intro v hv
        cases hv
        rfl

theorem C3_one_draw_call_witness :
    (DrawMeshInstanced.render (fun _ => some exGpuMeshIndexed) 0
      exInstanceBuffer).1 = RenderCommandResult.Success ∧
    ((DrawMeshInstanced.render (fun _ => some exGpuMeshIndexed) 0
      exInstanceBuffer).2.filter PassCommand.isDraw).length = 1 ∧
    (DrawMeshInstanced.render (fun _ => some exGpuMeshIndexed) 0
      exInstanceBuffer).2
      = [PassCommand.set_vertex_buffer 0 exGpuMeshIndexed.vertex_buffer,
         PassCommand.set_vertex_buffer 1 exInstanceBuffer.buffer,
         PassCommand.set_index_buffer [5, 6] 0 IndexFormat.Uint32,
         PassCommand.draw_indexed 0 36 0 0
           (exInstanceBuffer.length % 2 ^ 32)] ∧
    exInstanceBuffer.length % 2 ^ 32 = exInstanceBuffer.length := by
  have h := C3_one_draw_call (fun _ => some exGpuMeshIndexed) 0
    exInstanceBuffer exGpuMeshIndexed rfl
  exact ⟨h.1, h.2.1, h.2.2.1 [5, 6] IndexFormat.Uint32 36 rfl,
    h.2.2.2.2 (by decide)⟩

/-- C8: when the GPU mesh resource is absent at draw time,
`DrawMeshInstanced::render` returns `Failure` having issued no render-pass
command at all, and every other queued item's draw runs exactly as it would
alone. -/
theorem C8_missing_mesh_failure (meshes : Nat → Option GpuMesh)
    (mesh_handle : Nat) (instance_buffer : InstanceBuffer)
    (h : meshes mesh_handle = none) :
    DrawMeshInstanced.render meshes mesh_handle instance_buffer
      = (RenderCommandResult.Failure, []) ∧
    ∀ pre post : List (Nat × InstanceBuffer),
      render_items meshes (pre ++ (mesh_handle, instance_buffer) :: post)
        = render_items meshes pre
            ++ (RenderCommandResult.Failure, []) :: render_items meshes post := by
  have hfail : DrawMeshInstanced.render meshes mesh_handle instance_buffer
      = (RenderCommandResult.Failure, []) := by
    unfold DrawMeshInstanced.render
    rw [h]
  refine ⟨hfail, fun pre post => ?_⟩
  simp [render_items, hfail]

theorem C8_missing_mesh_failure_witness :
    DrawMeshInstanced.render (fun _ => none) 0 exInstanceBuffer
      = (RenderCommandResult.Failure, []) ∧
    render_items (fun _ => none) [(0, exInstanceBuffer)]
      = [(RenderCommandResult.Failure, [])] := by
  have h := C8_missing_mesh_failure (fun _ => none) 0 exInstanceBuffer rfl
  exact ⟨h.1, h.2 [] []⟩

/-- C10: the instance count of every draw call issued by
`DrawMeshInstanced::render` is the stored `InstanceBuffer` length reduced
modulo 2^32 (`as u32`): it equals the collection length exactly whenever
that length is below 2^32, and silently truncates for longer collections. -/
theorem C10_instance_count_truncation (meshes : Nat → Option GpuMesh)
    (mesh_handle : Nat) (instance_buffer : InstanceBuffer) (gpu_mesh : GpuMesh)
    (h : meshes mesh_handle = some gpu_mesh) :
    drawInstanceEnds
      (DrawMeshInstanced.render meshes mesh_handle instance_buffer).2
      = [instance_buffer.length % 2 ^ 32] ∧
    (instance_buffer.length < 2 ^ 32 →
      drawInstanceEnds
        (DrawMeshInstanced.render meshes mesh_handle instance_buffer).2
        = [instance_buffer.length]) ∧
    (2 ^ 32 ≤ instance_buffer.length →
      instance_buffer.length % 2 ^ 32 < instance_buffer.length) := by
  rw [DrawMeshInstanced.render_eq meshes mesh_handle instance_buffer gpu_mesh h]
  have hend : drawInstanceEnds
      (match gpu_mesh.buffer_info with
        | GpuBufferInfo.Indexed buffer index_format count =>
            (RenderCommandResult.Success,
              [PassCommand.set_vertex_buffer 0 gpu_mesh.vertex_buffer,
               PassCommand.set_vertex_buffer 1 instance_buffer.buffer,
               PassCommand.set_index_buffer buffer 0 index_format,
               PassCommand.draw_indexed 0 count 0 0
                 (instance_buffer.length % 2 ^ 32)])
        | GpuBufferInfo.NonIndexed vertex_count =>
            (RenderCommandResult.Success,
              [PassCommand.set_vertex_buffer 0 gpu_mesh.vertex_buffer,
               PassCommand.set_vertex_buffer 1 instance_buffer.buffer,
               PassCommand.draw 0 vertex_count 0
                 (instance_buffer.length % 2 ^ 32)])).2
      = [instance_buffer.length % 2 ^ 32] := by
    cases gpu_mesh.buffer_info <;> rfl
  refine ⟨hend, fun hlt => ?_, fun hge => ?_⟩
  · rw [hend, Nat.mod_eq_of_lt hlt]
  · exact lt_of_lt_of_le (Nat.mod_lt _ (by decide)) hge

theorem C10_instance_count_truncation_witness :
    drawInstanceEnds
      (DrawMeshInstanced.render (fun _ => some exGpuMeshNonIndexed) 0
        exInstanceBuffer).2 = [exInstanceBuffer.length] ∧
    (⟨[], 2 ^ 32⟩ : InstanceBuffer).length % 2 ^ 32
      < (⟨[], 2 ^ 32⟩ : InstanceBuffer).length := by
  have h₁ := C10_instance_count_truncation (fun _ => some exGpuMeshNonIndexed)
    0 exInstanceBuffer exGpuMeshNonIndexed rfl
  have h₂ := C10_instance_count_truncation (fun _ => some exGpuMeshNonIndexed)
    0 ⟨[], 2 ^ 32⟩ exGpuMeshNonIndexed rfl
  exact ⟨h₁.2.1 (by decide), h₂.2.2 (le_refl _)⟩

/-- C4: whenever the base material specialization succeeds,
`InstancedMeshMaterialPipeline::specialize` returns the base descriptor with
exactly one vertex-buffer-layout appended — stride 12 bytes, per-instance
step mode, one `Float32x3` attribute at offset 0 — and every field the base
specialization produced (its buffer layouts and attributes included) is left
unchanged. -/
theorem C4_specialize_appends_instance_layout {Key : Type}
    (base : Key → MeshVertexBufferLayout →
      Except SpecializedMeshPipelineError RenderPipelineDescriptor)
    (key : Key) (layout : MeshVertexBufferLayout)
    (d : RenderPipelineDescriptor) (hbase : base key layout = Except.ok d) :
    InstancedMeshMaterialPipeline.specialize base key layout
      = Except.ok { d with vertex := { d.vertex with
          buffers := d.vertex.buffers ++ [instanceVertexBufferLayout] } } ∧
    instanceVertexBufferLayout.array_stride = 12 ∧
    instanceVertexBufferLayout.step_mode = VertexStepMode.Instance ∧
    instanceVertexBufferLayout.attributes
      = [{ format := VertexFormat.Float32x3, offset := 0,
           shader_location := 10 }] ∧
    (∀ d', InstancedMeshMaterialPipeline.specialize base key layout
        = Except.ok d' →
      d'.vertex.buffers.length = d.vertex.buffers.length + 1 ∧
      d'.vertex.buffers.take d.vertex.buffers.length = d.vertex.buffers ∧
      d'.vertex.buffers.drop d.vertex.buffers.length
        = [instanceVertexBufferLayout] ∧
      d'.vertex.shader = d.vertex.shader ∧
      d'.vertex.entry_point = d.vertex.entry_point ∧
      d'.vertex.shader_defs = d.vertex.shader_defs ∧
      d'.label = d.label ∧ d'.layout = d.layout ∧ d'.fragment = d.fragment ∧
      d'.primitive = d.primitive ∧ d'.depth_stencil = d.depth_stencil ∧
      d'.multisample = d.multisample) := by
  have hspec : InstancedMeshMaterialPipeline.specialize base key layout
      = Except.ok { d with vertex := { d.vertex with
          buffers := d.vertex.buffers ++ [instanceVertexBufferLayout] } } := by
    unfold InstancedMeshMaterialPipeline.specialize
    rw [hbase]
    rfl
  refine ⟨hspec, rfl, rfl, rfl, fun d' hd' => ?_⟩
  rw [hspec] at hd'
  injection hd' with hd'
  subst hd'
  refine ⟨by simp, ?_, ?_, rfl, rfl, rfl, rfl, rfl, rfl, rfl, rfl, rfl⟩
  · exact List.take_left d.vertex.buffers [instanceVertexBufferLayout]
  · exact List.drop_left d.vertex.buffers [instanceVertexBufferLayout]

theorem C4_specialize_appends_instance_layout_witness :
    InstancedMeshMaterialPipeline.specialize exBase 0 ⟨0⟩
      = Except.ok { exBaseDescriptor with
          vertex := { exBaseDescriptor.vertex with
            buffers := exBaseDescriptor.vertex.buffers
              ++ [instanceVertexBufferLayout] } } ∧
    instanceVertexBufferLayout.array_stride = 12 ∧
    instanceVertexBufferLayout.step_mode = VertexStepMode.Instance ∧
    instanceVertexBufferLayout.attributes
      = [{ format := VertexFormat.Float32x3, offset := 0,
           shader_location := 10 }] := by
  have h := C4_specialize_appends_instance_layout exBase 0 ⟨0⟩
    exBaseDescriptor rfl
  exact ⟨h.1, h.2.1, h.2.2.1, h.2.2.2.1⟩

/-- C5 counterexample: the appended per-instance attribute is bound at the
fixed shader location 10, so a base specialization whose mesh layout already
carries an attribute at shader location 10 (a custom vertex attribute may
use any slot) yields a returned descriptor in which the instance attribute
collides with a base attribute slot — the claimed no-collision guarantee
fails on that input. -/
theorem C5_collision_counterexample :
    exBaseLoc10 0 ⟨0⟩ = Except.ok exBaseDescriptorLoc10 ∧
    InstancedMeshMaterialPipeline.specialize exBaseLoc10 0 ⟨0⟩
      = Except.ok { exBaseDescriptorLoc10 with
          vertex := { exBaseDescriptorLoc10.vertex with
            buffers := exBaseDescriptorLoc10.vertex.buffers
              ++ [instanceVertexBufferLayout] } } ∧
    10 ∈ descriptorLocations exBaseDescriptorLoc10 ∧
    instanceVertexBufferLayout.attributes.map VertexAttribute.shader_location
      = [10] := by
  exact ⟨rfl, rfl, by decide, rfl⟩

/-- C5 (amended): the appended per-instance attribute is bound at the fixed
shader location 10; it collides with no attribute slot of the base mesh
layout in the returned descriptor provided the base descriptor uses no
attribute at shader location 10 (true of the host's standard mesh
attributes). -/
theorem C5_no_collision_when_base_avoids_10 {Key : Type}
    (base : Key → MeshVertexBufferLayout →
      Except SpecializedMeshPipelineError RenderPipelineDescriptor)
    (key : Key) (layout : MeshVertexBufferLayout)
    (d d' : RenderPipelineDescriptor)
    (hbase : base key layout = Except.ok d)
    (hspec : InstancedMeshMaterialPipeline.specialize base key layout
      = Except.ok d')
    (h10 : 10 ∉ descriptorLocations d) :
    instanceVertexBufferLayout.attributes.map VertexAttribute.shader_location
      = [10] ∧
    d'.vertex.buffers = d.vertex.buffers ++ [instanceVertexBufferLayout] ∧
    ∀ loc ∈ descriptorLocations d,
      ∀ loc' ∈ instanceVertexBufferLayout.attributes.map
        VertexAttribute.shader_location, loc ≠ loc' := by
  have hspec' : InstancedMeshMaterialPipeline.specialize base key layout
      = Except.ok { d with vertex := { d.vertex with
          buffers := d.vertex.buffers ++ [instanceVertexBufferLayout] } } := by
    unfold InstancedMeshMaterialPipeline.specialize
    rw [hbase]
    rfl
  rw [hspec'] at hspec
  injection hspec with hd'
  subst hd'
  refine ⟨rfl, rfl, fun loc hloc loc' hloc' => ?_⟩
  have h10' : loc' = 10 := by
    simpa [instanceVertexBufferLayout] using hloc'
  subst h10'
  exact fun hcontra => h10 (hcontra ▸ hloc)

theorem C5_no_collision_when_base_avoids_10_witness :
    instanceVertexBufferLayout.attributes.map VertexAttribute.shader_location
      = [10] ∧
    ({ exBaseDescriptor with vertex := { exBaseDescriptor.vertex with
        buffers := exBaseDescriptor.vertex.buffers
          ++ [instanceVertexBufferLayout] } }
      : RenderPipelineDescriptor).vertex.buffers
      = exBaseDescriptor.vertex.buffers ++ [instanceVertexBufferLayout] ∧
    (0 : Nat) ≠ 10 := by
  have h := C5_no_collision_when_base_avoids_10 exBase 0 ⟨0⟩ exBaseDescriptor
    { exBaseDescriptor with vertex := { exBaseDescriptor.vertex with
        buffers := exBaseDescriptor.vertex.buffers
          ++ [instanceVertexBufferLayout] } }
    rfl rfl (by decide)
  exact ⟨h.1, h.2.1, h.2.2 0 (by decide) 10 (by decide)⟩
